import Mathlib

/-!
Cell-stream writer: `class xlsxwriter` of ConsoleApplication2.cpp.

A shallow embedding of the `xlsxwriter` wrapper class.  The object's data members are
the fields of `xlsxwriter`; the libxlsxwriter calls a method issues are appended, in
order, to a call log, with the arguments as the library receives them.  What the library
returns (handles) and what the file system answers (`filesystem::exists`, which may also
throw) are arguments of the methods that ask for them.
-/

/-! ## The C++ type `int` -/

/-- Smallest value of the 32-bit `int`. -/
def INT_MIN : Int := -2147483648

/-- Largest value of the 32-bit `int`. -/
def INT_MAX : Int := 2147483647

/-- Reduction of an integer to the 32-bit two's-complement range. -/
def wrapInt (x : Int) : Int := (x + 2147483648) % 4294967296 - 2147483648

/-- A value of the C++ type `int`: an integer of the 32-bit signed range. -/
def CInt : Type := { x : Int // INT_MIN ≤ x ∧ x ≤ INT_MAX }

instance : DecidableEq CInt := inferInstanceAs (DecidableEq { x : Int // INT_MIN ≤ x ∧ x ≤ INT_MAX })

/-- Conversion of an integer to `int`. -/
def cint (x : Int) : CInt :=
  ⟨wrapInt x, by unfold wrapInt INT_MIN INT_MAX; omega⟩

/-- The increment `x++` on `int`.  The result stays an `int`: at `INT_MAX`, where C++ leaves
signed overflow undefined, the value wraps to `INT_MIN` (two's complement, as on the x64
target of the program). -/
def incr (x : CInt) : CInt := cint (x.val + 1)

/-! ## Library side -/

/-- The conversion of an `int` argument to `lxw_row_t`.  The type is declared by
libxlsxwriter (`typedef uint32_t lxw_row_t;` in its header common.h), outside the
repository. -/
def lxw_row_t (x : Int) : Int := x % 4294967296

/-- The conversion of an `int` argument to `lxw_col_t`.  The type is declared by
libxlsxwriter (`typedef uint16_t lxw_col_t;` in its header common.h), outside the
repository. -/
def lxw_col_t (x : Int) : Int := x % 65536

/-- The C string `s.c_str()` as a callee reads it: the characters before the first NUL. -/
def c_str (s : String) : String := String.mk (s.data.takeWhile (fun c => c != Char.ofNat 0))

/-- The exception `std::filesystem::filesystem_error` thrown for a path. -/
inductive filesystem_error where
  | mk (path : String)
  deriving DecidableEq

/-- A pointer returned by the library (`lxw_workbook*`, `lxw_worksheet*`, `lxw_format*`);
`0` is `NULL`. -/
abbrev Handle := Nat

/-- The null pointer. -/
def NULL : Handle := 0

/-- The payload of a `double`; the writer only passes it on. -/
abbrev Double := ℚ

/-- A call into libxlsxwriter, with the arguments as the library receives them: `row` and
`col` are the `int` members `_j` and `_i` converted to `lxw_row_t` and `lxw_col_t`, and a
text is the C string handed over.  What the library does with a call is outside the
program. -/
inductive Call where
  | workbook_new (filename : String)
  | workbook_add_worksheet (workbook : Handle) (sheetname : String)
  | workbook_add_format (workbook : Handle)
  | workbook_close (workbook : Handle)
  | worksheet_write_string (worksheet : Handle) (row col : Int) (txt : String) (format : Handle)
  | worksheet_write_number (worksheet : Handle) (row col : Int) (x : Double) (format : Handle)
  | worksheet_insert_image (worksheet : Handle) (row col : Int) (filename : String)
  deriving DecidableEq

/-! ## `std::map<string, T*>` -/

/-- The entries of a `std::map<string, T*>`.  The program never iterates over its maps, so
the key order is not kept. -/
abbrev StdMap := List (String × Handle)

namespace StdMap

/-- Lookup `std::map::find`. -/
def find (m : StdMap) (k : String) : Option Handle := List.lookup k m

/-- Insertion `std::map::insert`: the pair is added only when no entry has the key. -/
def insert (m : StdMap) (k : String) (v : Handle) : StdMap :=
  match m.find k with
  | some _ => m
  | none => (k, v) :: m

end StdMap

/-! ## The class -/

/-- The class `image`. -/
structure image where
  nomFichier : String
  deriving DecidableEq

/-- The method `image::nom`. -/
def image.nom (img : image) : String := img.nomFichier

/-- The data members of `class xlsxwriter`. -/
structure xlsxwriter where
  workbook : Handle
  worksheet : Handle
  format : Handle
  onglet : StdMap
  mapF : StdMap
  _i : CInt
  _j : CInt
  deriving DecidableEq

/-- A writer object together with the library calls issued so far. -/
structure Sys where
  obj : xlsxwriter
  lib : List Call
  deriving DecidableEq

/-- The argument of the `write` / `writeln` overload set, as the templates `operator<<`
and `operator||` receive it. -/
inductive Value where
  | str (txt : String)
  | dbl (x : Double)
  | int (x : CInt)
  | vecteur (V : List Double)
  | vector_string (V : List String)
  | img (im : image)

/-- A stream manipulator `std::ostream& (*)(std::ostream&)`. -/
inductive Manip where
  | endl
  | flush
  | ends
  deriving DecidableEq

namespace xlsxwriter

/-- The constructor `xlsxwriter(nomFichier, sheet)`; `wb` is what `workbook_new` returns and
`ws` what `workbook_add_worksheet` returns.  Members are initialised in declaration order,
so `format` is still `NULL` when `mapF` is built. -/
def ctor (nomFichier sheet : String) (wb ws : Handle) : Sys :=
  { obj :=
      { workbook := wb
        worksheet := ws
        format := NULL
        onglet := [(sheet, ws)]
        mapF := [("défaut", NULL)]
        _i := cint 0
        _j := cint 0 }
    lib := [Call.workbook_new (c_str nomFichier), Call.workbook_add_worksheet wb (c_str sheet)] }

/-- The method `close()`. -/
def close (s : Sys) : Sys :=
  { s with lib := s.lib ++ [Call.workbook_close s.obj.workbook] }

/-- The overload `write(string txt)`. -/
def write_string (txt : String) (s : Sys) : Sys :=
  { obj := { s.obj with _i := incr s.obj._i }
    lib := s.lib ++
      [Call.worksheet_write_string s.obj.worksheet (lxw_row_t s.obj._j.val)
        (lxw_col_t s.obj._i.val) (c_str txt) s.obj.format] }

/-- The overload `write(double x)`. -/
def write_double (x : Double) (s : Sys) : Sys :=
  { obj := { s.obj with _i := incr s.obj._i }
    lib := s.lib ++
      [Call.worksheet_write_number s.obj.worksheet (lxw_row_t s.obj._j.val)
        (lxw_col_t s.obj._i.val) x s.obj.format] }

/-- The overload `write(int x)`. -/
def write_int (x : CInt) (s : Sys) : Sys :=
  { obj := { s.obj with _i := incr s.obj._i }
    lib := s.lib ++
      [Call.worksheet_write_number s.obj.worksheet (lxw_row_t s.obj._j.val)
        (lxw_col_t s.obj._i.val) (x.val : ℚ) s.obj.format] }

/-- The overload `write(vecteur V)`. -/
def write_vecteur (V : List Double) (s : Sys) : Sys :=
  V.foldl (fun acc x => write_double x acc) s

/-- The overload `write(vector<string> V)`. -/
def write_vector_string (V : List String) (s : Sys) : Sys :=
  V.foldl (fun acc x => write_string x acc) s

/-- The overload `write(const image& img)`. -/
def write_image (img : image) (s : Sys) : Sys :=
  { obj := { s.obj with _i := incr s.obj._i }
    lib := s.lib ++
      [Call.worksheet_insert_image s.obj.worksheet (lxw_row_t s.obj._j.val)
        (lxw_col_t s.obj._i.val) (c_str img.nom)] }

/-- The overload `writeln(string txt)`. -/
def writeln_string (txt : String) (s : Sys) : Sys :=
  { obj := { s.obj with _j := incr s.obj._j }
    lib := s.lib ++
      [Call.worksheet_write_string s.obj.worksheet (lxw_row_t s.obj._j.val)
        (lxw_col_t s.obj._i.val) (c_str txt) s.obj.format] }

/-- The overload `writeln(double x)`. -/
def writeln_double (x : Double) (s : Sys) : Sys :=
  { obj := { s.obj with _j := incr s.obj._j }
    lib := s.lib ++
      [Call.worksheet_write_number s.obj.worksheet (lxw_row_t s.obj._j.val)
        (lxw_col_t s.obj._i.val) x s.obj.format] }

/-- The overload `writeln(int x)`. -/
def writeln_int (x : CInt) (s : Sys) : Sys :=
  { obj := { s.obj with _j := incr s.obj._j }
    lib := s.lib ++
      [Call.worksheet_write_number s.obj.worksheet (lxw_row_t s.obj._j.val)
        (lxw_col_t s.obj._i.val) (x.val : ℚ) s.obj.format] }

/-- The overload `writeln(vecteur V)`. -/
def writeln_vecteur (V : List Double) (s : Sys) : Sys :=
  V.foldl (fun acc x => writeln_double x acc) s

/-- The overload `writeln(vector<string> V)`. -/
def writeln_vector_string (V : List String) (s : Sys) : Sys :=
  V.foldl (fun acc x => writeln_string x acc) s

/-- The overload `writeln(const image& img)`; `fsExists` answers `filesystem::exists`,
which returns a truth value or throws.  The exception leaves the method before anything is
written or incremented. -/
def writeln_image (fsExists : String → Except filesystem_error Bool) (img : image) (s : Sys) :
    Except filesystem_error Sys :=
  match fsExists img.nom with
  | Except.error e => Except.error e
  | Except.ok true =>
    Except.ok
      { obj := { s.obj with _j := incr s.obj._j }
        lib := s.lib ++
          [Call.worksheet_insert_image s.obj.worksheet (lxw_row_t s.obj._j.val)
            (lxw_col_t s.obj._i.val) (c_str img.nom)] }
  | Except.ok false => Except.ok s

/-- The method `addSheet(sheet)`; `ret` is what `workbook_add_worksheet` returns. -/
def addSheet (sheet : String) (ret : Handle) (s : Sys) : Sys :=
  { obj := { s.obj with worksheet := ret, onglet := s.obj.onglet.insert sheet ret }
    lib := s.lib ++ [Call.workbook_add_worksheet s.obj.workbook (c_str sheet)] }

/-- The method `addFormat(form)`; `ret` is what `workbook_add_format` returns. -/
def addFormat (form : String) (ret : Handle) (s : Sys) : Sys :=
  { obj := { s.obj with format := ret, mapF := s.obj.mapF.insert form ret }
    lib := s.lib ++ [Call.workbook_add_format s.obj.workbook] }

/-- The method `setcursor(i, j)`. -/
def setcursor (i j : CInt) (s : Sys) : Sys :=
  { s with obj := { s.obj with _i := i, _j := j } }

/-- The template `operator<<(const T& t)`: overload resolution of `write(t)`. -/
def op_shl (t : Value) (s : Sys) : Sys :=
  match t with
  | Value.str txt => write_string txt s
  | Value.dbl x => write_double x s
  | Value.int x => write_int x s
  | Value.vecteur V => write_vecteur V s
  | Value.vector_string V => write_vector_string V s
  | Value.img img => write_image img s

/-- The overload `operator<<(std::ostream& (*f)(std::ostream&))`. -/
def op_shl_manip (f : Manip) (s : Sys) : Sys :=
  if f = Manip.endl then
    { s with obj := { s.obj with _i := cint 0, _j := incr s.obj._j } }
  else s

/-- The template `operator||(const T& t)`: overload resolution of `writeln(t)`; an
exception of `writeln` leaves the operator. -/
def op_oror (fsExists : String → Except filesystem_error Bool) (t : Value) (s : Sys) :
    Except filesystem_error Sys :=
  match t with
  | Value.str txt => Except.ok (writeln_string txt s)
  | Value.dbl x => Except.ok (writeln_double x s)
  | Value.int x => Except.ok (writeln_int x s)
  | Value.vecteur V => Except.ok (writeln_vecteur V s)
  | Value.vector_string V => Except.ok (writeln_vector_string V s)
  | Value.img img => writeln_image fsExists img s

/-- The destructor `~xlsxwriter()`. -/
def dtor (s : Sys) : Sys := close s

/-- The implicitly declared copy constructor `xlsxwriter(const xlsxwriter&)`: every member
is copied, the pointers included; no library call is made. -/
def copy_ctor (other : xlsxwriter) : xlsxwriter :=
  { workbook := other.workbook
    worksheet := other.worksheet
    format := other.format
    onglet := other.onglet
    mapF := other.mapF
    _i := other._i
    _j := other._j }

end xlsxwriter

/-! ## Public interface as a transition system -/

/-- A call of a public member of `xlsxwriter` on a live object. -/
inductive Op where
  | addSheet (sheet : String) (ret : Handle)
  | addFormat (form : String) (ret : Handle)
  | setcursor (i j : CInt)
  | shl (t : Value)
  | shl_manip (f : Manip)
  | oror (fsExists : String → Except filesystem_error Bool) (t : Value)

/-- The state of the object and the call log after one public call.  A call that throws
has changed neither. -/
def Op.apply : Op → Sys → Sys
  | Op.addSheet sheet ret, s => xlsxwriter.addSheet sheet ret s
  | Op.addFormat form ret, s => xlsxwriter.addFormat form ret s
  | Op.setcursor i j, s => xlsxwriter.setcursor i j s
  | Op.shl t, s => xlsxwriter.op_shl t s
  | Op.shl_manip f, s => xlsxwriter.op_shl_manip f s
  | Op.oror fsExists t, s =>
    match xlsxwriter.op_oror fsExists t s with
    | Except.ok s1 => s1
    | Except.error _ => s

/-- A sequence of public calls, executed left to right. -/
def runOps (ops : List Op) (s : Sys) : Sys := ops.foldl (fun acc op => op.apply acc) s

/-- The life of a writer object: construction, public calls, destruction. -/
def lifetime (nomFichier sheet : String) (wb ws : Handle) (ops : List Op) : Sys :=
  xlsxwriter.dtor (runOps ops (xlsxwriter.ctor nomFichier sheet wb ws))

open xlsxwriter

/-- A sequence of public calls on a writer: setcursor(0,1), operator<< with "hello", with
"world", with std::endl and with 3.1415, operator|| with the vector (1.2, 3.5, -6.0),
setcursor(0,5), operator<< with the same vector. -/
def scenario (fsExists : String → Except filesystem_error Bool) : List Op :=
  [ Op.setcursor (cint 0) (cint 1),
    Op.shl (Value.str "hello"),
    Op.shl (Value.str "world"),
    Op.shl_manip Manip.endl,
    Op.shl (Value.dbl 3.1415),
    Op.oror fsExists (Value.vecteur [1.2, 3.5, -6.0]),
    Op.setcursor (cint 0) (cint 5),
    Op.shl (Value.vecteur [1.2, 3.5, -6.0]) ]

/-- The function `TestWriteFile(nomFichier)`: the writer `XW` is constructed, used and
destroyed at the end of the scope. -/
def TestWriteFile (fsExists : String → Except filesystem_error Bool) (nomFichier : String)
    (wb ws : Handle) : Sys :=
  lifetime nomFichier "démo" wb ws
    [ Op.setcursor (cint 0) (cint 1),
      Op.shl (Value.str "hello"),
      Op.shl (Value.str "to everybody"),
      Op.shl_manip Manip.endl,
      Op.shl_manip Manip.endl,
      Op.shl (Value.dbl 3.1415),
      Op.oror fsExists (Value.vecteur [1.2, 3.5, -6, 7.2, 12.22]),
      Op.setcursor (cint 0) (cint 5),
      Op.shl (Value.vecteur [1.2, 3.5, -6, 7.2, 12.22]),
      Op.shl (Value.img (image.mk "image.jpg")) ]

/-- A scalar value: text, floating-point number or integer. -/
inductive Scalar where
  | text (txt : String)
  | dbl (x : Double)
  | int (x : CInt)

/-- A scalar as an argument of `operator<<` / `operator||`. -/
def Scalar.toValue : Scalar → Value
  | Scalar.text txt => Value.str txt
  | Scalar.dbl x => Value.dbl x
  | Scalar.int x => Value.int x

/-- The library call that commits a scalar to the cell (`row`, `col`) of a sheet; a text is
handed over as a C string. -/
def Scalar.cellCall (worksheet : Handle) (row col : Int) (format : Handle) : Scalar → Call
  | Scalar.text txt => Call.worksheet_write_string worksheet row col (c_str txt) format
  | Scalar.dbl x => Call.worksheet_write_number worksheet row col x format
  | Scalar.int x => Call.worksheet_write_number worksheet row col (x.val : ℚ) format

/-- Scalars written one after another with `operator<<`. -/
def shl_seq (vs : List Scalar) (s : Sys) : Sys :=
  vs.foldl (fun acc v => op_shl v.toValue acc) s

/-- Scalars written one after another with `operator||`. -/
def oror_seq (fsExists : String → Except filesystem_error Bool) (vs : List Scalar) (s : Sys) :
    Except filesystem_error Sys :=
  vs.foldlM (fun acc v => op_oror fsExists v.toValue acc) s

/-- Number of cells a value occupies when written with `operator<<`. -/
def Value.cells : Value → Nat
  | Value.vecteur V => V.length
  | Value.vector_string V => V.length
  | _ => 1

/-- Number of rows the cursor moves down when a value is written with `operator||`. -/
def Value.lines (fsExists : String → Except filesystem_error Bool) : Value → Nat
  | Value.vecteur V => V.length
  | Value.vector_string V => V.length
  | Value.img im =>
    match fsExists im.nom with
    | Except.ok true => 1
    | _ => 0
  | _ => 1

/-- A public call that is given no negative coordinate and that increments no cursor
coordinate beyond `INT_MAX`. -/
def Op.admissible (s : Sys) : Op → Prop
  | Op.addSheet _ _ => True
  | Op.addFormat _ _ => True
  | Op.setcursor i j => 0 ≤ i.val ∧ 0 ≤ j.val
  | Op.shl t => s.obj._i.val + (t.cells : Int) ≤ INT_MAX
  | Op.shl_manip f => f = Manip.endl → s.obj._j.val < INT_MAX
  | Op.oror fsExists t => s.obj._j.val + (t.lines fsExists : Int) ≤ INT_MAX

/-- States reached from construction through admissible public calls. -/
inductive Reachable : Sys → Prop where
  | ctor (nomFichier sheet : String) (wb ws : Handle) :
      Reachable (xlsxwriter.ctor nomFichier sheet wb ws)
  | step {s : Sys} (op : Op) : Reachable s → op.admissible s → Reachable (op.apply s)

/-- Whether a library call is `workbook_close`. -/
def Call.isClose : Call → Bool
  | Call.workbook_close _ => true
  | _ => false

/-- Number of `workbook_close` calls in a call log. -/
def closeCount (l : List Call) : Nat := l.countP Call.isClose

/-- The call log of a block `{ xlsxwriter A(nomFichier, sheet); xlsxwriter B(A); }`: `A` is
constructed, `B` is copy-constructed from it, and at the end of the block `B` is destroyed
first, then `A`. -/
def copy_scope (nomFichier sheet : String) (wb ws : Handle) : List Call :=
  (dtor
    { obj := (ctor nomFichier sheet wb ws).obj
      lib := (dtor
        { obj := copy_ctor (ctor nomFichier sheet wb ws).obj
          lib := (ctor nomFichier sheet wb ws).lib }).lib }).lib

/-- A name of 300 characters. -/
def longName : String := String.mk (List.replicate 300 'a')

/-- A file system in which no file exists and the status query fails for a name of more
than 255 characters. -/
def emptyFs (p : String) : Except filesystem_error Bool :=
  if p.length ≤ 255 then Except.ok false else Except.error (filesystem_error.mk p)


/-! ## Arithmetic of `int` and of the library's index types -/

theorem wrapInt_of_range (x : Int) (h : INT_MIN ≤ x ∧ x ≤ INT_MAX) : wrapInt x = x := by
  unfold wrapInt
  unfold INT_MIN INT_MAX at h
  omega

theorem incr_val (x : CInt) (h : x.val < INT_MAX) : (incr x).val = x.val + 1 := by
  have hx := x.property
  show wrapInt (x.val + 1) = x.val + 1
  apply wrapInt_of_range
  constructor <;> omega

theorem cint_zero_val : (cint 0).val = 0 := by decide

theorem lxw_row_t_of_nonneg (x : CInt) (h : 0 ≤ x.val) : lxw_row_t x.val = x.val := by
  have hx := x.property
  unfold INT_MAX at hx
  unfold lxw_row_t
  omega

theorem lxw_row_t_add_of_nonneg (x : Int) (k : Int) (h0 : 0 ≤ x) (hk : 0 ≤ k)
    (h : x + k ≤ INT_MAX) : lxw_row_t (x + k) = x + k := by
  unfold INT_MAX at h
  unfold lxw_row_t
  omega

theorem lxw_col_t_of_range (x : Int) (h0 : 0 ≤ x) (h1 : x ≤ 65535) : lxw_col_t x = x := by
  unfold lxw_col_t
  omega

theorem mapIdx_congr {α β : Type} (l : List α) (f g : Nat → α → β)
    (h : ∀ k, k < l.length → ∀ x, f k x = g k x) : l.mapIdx f = l.mapIdx g := by
  apply List.ext_getElem?
  intro k
  rw [List.getElem?_mapIdx, List.getElem?_mapIdx]
  by_cases hk : k < l.length
  · rw [List.getElem?_eq_getElem hk]
    simp [h k hk]
  · rw [List.getElem?_eq_none (by omega)]
    rfl

/-! ## One scalar -/

theorem op_shl_scalar (v : Scalar) (s : Sys) :
    op_shl v.toValue s =
      { obj := { s.obj with _i := incr s.obj._i }
        lib := s.lib ++ [v.cellCall s.obj.worksheet (lxw_row_t s.obj._j.val)
          (lxw_col_t s.obj._i.val) s.obj.format] } := by
  cases v <;> rfl

theorem op_oror_scalar (fsExists : String → Except filesystem_error Bool) (v : Scalar)
    (s : Sys) :
    op_oror fsExists v.toValue s = Except.ok
      { obj := { s.obj with _j := incr s.obj._j }
        lib := s.lib ++ [v.cellCall s.obj.worksheet (lxw_row_t s.obj._j.val)
          (lxw_col_t s.obj._i.val) s.obj.format] } := by
  cases v <;> rfl

theorem shl_seq_cons (v : Scalar) (vs : List Scalar) (s : Sys) :
    shl_seq (v :: vs) s = shl_seq vs (op_shl v.toValue s) := rfl

theorem oror_seq_cons (fsExists : String → Except filesystem_error Bool) (v : Scalar)
    (vs : List Scalar) (s : Sys) :
    oror_seq fsExists (v :: vs) s = oror_seq fsExists vs
      { obj := { s.obj with _j := incr s.obj._j }
        lib := s.lib ++ [v.cellCall s.obj.worksheet (lxw_row_t s.obj._j.val)
          (lxw_col_t s.obj._i.val) s.obj.format] } := by
  cases v <;> rfl

theorem shl_seq_spec (vs : List Scalar) (s : Sys)
    (h : s.obj._i.val + (vs.length : Int) ≤ INT_MAX) :
    (shl_seq vs s).obj._i.val = s.obj._i.val + (vs.length : Int) ∧
    (shl_seq vs s).obj._j = s.obj._j ∧
    (shl_seq vs s).obj.worksheet = s.obj.worksheet ∧
    (shl_seq vs s).obj.format = s.obj.format ∧
    (shl_seq vs s).lib = s.lib ++ vs.mapIdx (fun k v =>
      v.cellCall s.obj.worksheet (lxw_row_t s.obj._j.val)
        (lxw_col_t (s.obj._i.val + (k : Int))) s.obj.format) := by
  induction vs generalizing s with
  | nil => simp [shl_seq]
  | cons v vs ih =>
    have hlen : ((v :: vs).length : Int) = (vs.length : Int) + 1 := by simp
    rw [hlen] at h ⊢
    have hi : (incr s.obj._i).val = s.obj._i.val + 1 := incr_val _ (by omega)
    rw [shl_seq_cons, op_shl_scalar]
    obtain ⟨h1, h2, h3, h4, h5⟩ := ih
      { obj := { s.obj with _i := incr s.obj._i }
        lib := s.lib ++ [v.cellCall s.obj.worksheet (lxw_row_t s.obj._j.val)
          (lxw_col_t s.obj._i.val) s.obj.format] }
      (by simp only [hi]; omega)
    refine ⟨?_, h2, h3, h4, ?_⟩
    · rw [h1]; simp only [hi]; omega
    · rw [h5, List.mapIdx_cons]
      simp only [hi, List.append_assoc, List.singleton_append, Nat.cast_zero, add_zero,
        Nat.cast_add, Nat.cast_one]
      have hf : (fun (k : Nat) (w : Scalar) =>
            w.cellCall s.obj.worksheet (lxw_row_t s.obj._j.val)
              (lxw_col_t (s.obj._i.val + 1 + (k : Int))) s.obj.format) =
          (fun (k : Nat) (w : Scalar) =>
            w.cellCall s.obj.worksheet (lxw_row_t s.obj._j.val)
              (lxw_col_t (s.obj._i.val + ((k : Int) + 1))) s.obj.format) := by
        funext k w
        rw [add_assoc, add_comm (1 : Int)]
      rw [hf]

theorem oror_seq_spec (fsExists : String → Except filesystem_error Bool) (vs : List Scalar)
    (s : Sys) (h : s.obj._j.val + (vs.length : Int) ≤ INT_MAX) :
    ∃ s1, oror_seq fsExists vs s = Except.ok s1 ∧
      s1.obj._i = s.obj._i ∧
      s1.obj._j.val = s.obj._j.val + (vs.length : Int) ∧
      s1.obj.worksheet = s.obj.worksheet ∧
      s1.obj.format = s.obj.format ∧
      s1.lib = s.lib ++ vs.mapIdx (fun k v =>
        v.cellCall s.obj.worksheet (lxw_row_t (s.obj._j.val + (k : Int)))
          (lxw_col_t s.obj._i.val) s.obj.format) := by
  induction vs generalizing s with
  | nil => exact ⟨s, rfl, rfl, by simp, rfl, rfl, by simp⟩
  | cons v vs ih =>
    have hlen : ((v :: vs).length : Int) = (vs.length : Int) + 1 := by simp
    rw [hlen] at h ⊢
    have hj : (incr s.obj._j).val = s.obj._j.val + 1 := incr_val _ (by omega)
    rw [oror_seq_cons]
    obtain ⟨s1, h0, h1, h2, h3, h4, h5⟩ := ih
      { obj := { s.obj with _j := incr s.obj._j }
        lib := s.lib ++ [v.cellCall s.obj.worksheet (lxw_row_t s.obj._j.val)
          (lxw_col_t s.obj._i.val) s.obj.format] }
      (by simp only [hj]; omega)
    refine ⟨s1, h0, h1, ?_, h3, h4, ?_⟩
    · rw [h2]; simp only [hj]; omega
    · rw [h5, List.mapIdx_cons]
      simp only [hj, List.append_assoc, List.singleton_append, Nat.cast_zero, add_zero,
        Nat.cast_add, Nat.cast_one]
      have hf : (fun (k : Nat) (w : Scalar) =>
            w.cellCall s.obj.worksheet (lxw_row_t (s.obj._j.val + 1 + (k : Int)))
              (lxw_col_t s.obj._i.val) s.obj.format) =
          (fun (k : Nat) (w : Scalar) =>
            w.cellCall s.obj.worksheet (lxw_row_t (s.obj._j.val + ((k : Int) + 1)))
              (lxw_col_t s.obj._i.val) s.obj.format) := by
        funext k w
        rw [add_assoc, add_comm (1 : Int)]
      rw [hf]

/-! ## Vectors are sequences of scalars -/

theorem write_vecteur_eq (V : List Double) (s : Sys) :
    write_vecteur V s = shl_seq (V.map Scalar.dbl) s := by
  unfold write_vecteur shl_seq
  rw [List.foldl_map]
  rfl

theorem write_vector_string_eq (V : List String) (s : Sys) :
    write_vector_string V s = shl_seq (V.map Scalar.text) s := by
  unfold write_vector_string shl_seq
  rw [List.foldl_map]
  rfl

theorem writeln_vecteur_eq (fsExists : String → Except filesystem_error Bool)
    (V : List Double) (s : Sys) :
    oror_seq fsExists (V.map Scalar.dbl) s = Except.ok (writeln_vecteur V s) := by
  induction V generalizing s with
  | nil => rfl
  | cons x V ih =>
    rw [List.map_cons, oror_seq_cons]
    exact ih _

theorem writeln_vector_string_eq (fsExists : String → Except filesystem_error Bool)
    (V : List String) (s : Sys) :
    oror_seq fsExists (V.map Scalar.text) s = Except.ok (writeln_vector_string V s) := by
  induction V generalizing s with
  | nil => rfl
  | cons x V ih =>
    rw [List.map_cons, oror_seq_cons]
    exact ih _

/-! ## Horizontal and vertical scalar sequences -/

/-- C1, counterexample: with the column at INT_MAX = 2147483647, writing one scalar with
operator<< leaves the column at -2147483648, not at 2147483647 + 1; a scalar written at
cursor (column 65536, row 0) reaches the library with column 0; and a scalar written at
cursor (column 0, row -2) reaches the library with row 4294967294. -/
theorem C1_counterexample :
    ((setcursor (cint 2147483647) (cint 0) (ctor "demo_file.xlsx" "Demo" 1 2)).obj._i.val
        = 2147483647 ∧
      (shl_seq [Scalar.int (cint 7)]
        (setcursor (cint 2147483647) (cint 0) (ctor "demo_file.xlsx" "Demo" 1 2))).obj._i.val
        = -2147483648 ∧
      (shl_seq [Scalar.int (cint 7)]
        (setcursor (cint 2147483647) (cint 0) (ctor "demo_file.xlsx" "Demo" 1 2))).obj._i.val
        ≠ 2147483647 + 1) ∧
    (shl_seq [Scalar.text "x"]
        (setcursor (cint 65536) (cint 0) (ctor "demo_file.xlsx" "Demo" 1 2))).lib =
      (ctor "demo_file.xlsx" "Demo" 1 2).lib ++ [Call.worksheet_write_string 2 0 0 "x" NULL] ∧
    (shl_seq [Scalar.text "x"]
        (setcursor (cint 0) (cint (-2)) (ctor "demo_file.xlsx" "Demo" 1 2))).lib =
      (ctor "demo_file.xlsx" "Demo" 1 2).lib ++
        [Call.worksheet_write_string 2 4294967294 0 "x" NULL] :=
  ⟨by decide, rfl, rfl⟩

/-- C1, amended: from cursor (c0, r0), N scalars (text, floating-point or integer) written
one after another with operator<<, where c0 + N ≤ INT_MAX, end with cursor (c0 + N, r0).
The calls issued are exactly the N cell writes on the current sheet with the current format,
the k-th (0-based) handing over the k-th value (a text as a C string) with the column
(c0 + k) mod 65536 and the row r0 mod 4294967296, the conversions to the index types of the
library; when 0 ≤ c0, c0 + N ≤ 65536 and 0 ≤ r0 these are column c0 + k and row r0
themselves. -/
theorem C1_horizontal_advance (s : Sys) (vs : List Scalar)
    (h : s.obj._i.val + (vs.length : Int) ≤ INT_MAX) :
    (shl_seq vs s).obj._i.val = s.obj._i.val + (vs.length : Int) ∧
    (shl_seq vs s).obj._j = s.obj._j ∧
    (shl_seq vs s).lib = s.lib ++ vs.mapIdx (fun k v =>
      v.cellCall s.obj.worksheet (lxw_row_t s.obj._j.val)
        (lxw_col_t (s.obj._i.val + (k : Int))) s.obj.format) ∧
    (0 ≤ s.obj._i.val → s.obj._i.val + (vs.length : Int) ≤ 65536 → 0 ≤ s.obj._j.val →
      (shl_seq vs s).lib = s.lib ++ vs.mapIdx (fun k v =>
        v.cellCall s.obj.worksheet s.obj._j.val (s.obj._i.val + (k : Int)) s.obj.format)) := by
  obtain ⟨h1, h2, _, _, h5⟩ := shl_seq_spec vs s h
  refine ⟨h1, h2, h5, ?_⟩
  intro hc hN hr
  rw [h5]
  congr 1
  apply mapIdx_congr
  intro k hk v
  rw [lxw_row_t_of_nonneg _ hr, lxw_col_t_of_range _ (by omega) (by omega)]

/-- C1, witness: three scalars written from cursor (4, 9). -/
theorem C1_horizontal_advance_witness :
    (setcursor (cint 4) (cint 9) (ctor "demo_file.xlsx" "Demo" 1 2)).obj._i.val
        + (([Scalar.text "a", Scalar.dbl 2.5, Scalar.int (cint 7)] : List Scalar).length : Int)
        ≤ INT_MAX ∧
    (shl_seq [Scalar.text "a", Scalar.dbl 2.5, Scalar.int (cint 7)]
        (setcursor (cint 4) (cint 9) (ctor "demo_file.xlsx" "Demo" 1 2))).obj._i.val = 4 + 3 :=
  ⟨by decide,
   (C1_horizontal_advance (setcursor (cint 4) (cint 9) (ctor "demo_file.xlsx" "Demo" 1 2))
      [Scalar.text "a", Scalar.dbl 2.5, Scalar.int (cint 7)] (by decide)).1⟩

/-- C2, counterexample: with the row at INT_MAX = 2147483647, writing one scalar with
operator|| leaves the row at -2147483648, not at 2147483647 + 1; a scalar written at cursor
(column 0, row -2) reaches the library with row 4294967294; and a scalar written at cursor
(column 70000, row 0) reaches the library with column 4464. -/
theorem C2_counterexample :
    ((setcursor (cint 0) (cint 2147483647) (ctor "demo_file.xlsx" "Demo" 1 2)).obj._j.val
        = 2147483647 ∧
      (Except.toOption (oror_seq emptyFs [Scalar.int (cint 7)]
        (setcursor (cint 0) (cint 2147483647) (ctor "demo_file.xlsx" "Demo" 1 2)))).map
          (fun s1 => s1.obj._j.val) = some (-2147483648)) ∧
    (Except.toOption (oror_seq emptyFs [Scalar.text "x"]
        (setcursor (cint 0) (cint (-2)) (ctor "demo_file.xlsx" "Demo" 1 2)))).map
          (fun s1 => s1.lib) =
      some ((ctor "demo_file.xlsx" "Demo" 1 2).lib ++
        [Call.worksheet_write_string 2 4294967294 0 "x" NULL]) ∧
    (Except.toOption (oror_seq emptyFs [Scalar.text "x"]
        (setcursor (cint 70000) (cint 0) (ctor "demo_file.xlsx" "Demo" 1 2)))).map
          (fun s1 => s1.lib) =
      some ((ctor "demo_file.xlsx" "Demo" 1 2).lib ++
        [Call.worksheet_write_string 2 0 4464 "x" NULL]) :=
  ⟨⟨by decide, rfl⟩, rfl, rfl⟩

/-- C2, amended: from cursor (c0, r0), N scalars (text, floating-point or integer) written
one after another with operator||, where r0 + N ≤ INT_MAX, all return and end with cursor
(c0, r0 + N).  The calls issued are exactly the N cell writes on the current sheet with the
current format, the k-th (0-based) handing over the k-th value (a text as a C string) with
the column c0 mod 65536 and the row (r0 + k) mod 4294967296, the conversions to the index
types of the library; when 0 ≤ c0 ≤ 65535 and 0 ≤ r0 these are column c0 and row r0 + k
themselves. -/
theorem C2_vertical_advance (fsExists : String → Except filesystem_error Bool) (s : Sys)
    (vs : List Scalar) (h : s.obj._j.val + (vs.length : Int) ≤ INT_MAX) :
    ∃ s1, oror_seq fsExists vs s = Except.ok s1 ∧
      s1.obj._i = s.obj._i ∧
      s1.obj._j.val = s.obj._j.val + (vs.length : Int) ∧
      s1.lib = s.lib ++ vs.mapIdx (fun k v =>
        v.cellCall s.obj.worksheet (lxw_row_t (s.obj._j.val + (k : Int)))
          (lxw_col_t s.obj._i.val) s.obj.format) ∧
      (0 ≤ s.obj._i.val → s.obj._i.val ≤ 65535 → 0 ≤ s.obj._j.val →
        s1.lib = s.lib ++ vs.mapIdx (fun k v =>
          v.cellCall s.obj.worksheet (s.obj._j.val + (k : Int)) s.obj._i.val s.obj.format)) := by
  obtain ⟨s1, h0, h1, h2, _, _, h5⟩ := oror_seq_spec fsExists vs s h
  refine ⟨s1, h0, h1, h2, h5, ?_⟩
  intro hc hc1 hr
  rw [h5]
  congr 1
  apply mapIdx_congr
  intro k hk v
  rw [lxw_row_t_add_of_nonneg _ _ hr (by omega) (by omega), lxw_col_t_of_range _ hc hc1]

/-- C2, witness: three scalars written downwards from cursor (4, 9). -/
theorem C2_vertical_advance_witness :
    (setcursor (cint 4) (cint 9) (ctor "demo_file.xlsx" "Demo" 1 2)).obj._j.val
        + (([Scalar.text "a", Scalar.dbl 2.5, Scalar.int (cint 7)] : List Scalar).length : Int)
        ≤ INT_MAX ∧
    ∃ s1, oror_seq emptyFs [Scalar.text "a", Scalar.dbl 2.5, Scalar.int (cint 7)]
          (setcursor (cint 4) (cint 9) (ctor "demo_file.xlsx" "Demo" 1 2)) = Except.ok s1 ∧
        s1.obj._j.val =
          (setcursor (cint 4) (cint 9) (ctor "demo_file.xlsx" "Demo" 1 2)).obj._j.val
            + (([Scalar.text "a", Scalar.dbl 2.5, Scalar.int (cint 7)] : List Scalar).length
                : Int) :=
  ⟨by decide,
   (C2_vertical_advance emptyFs
      (setcursor (cint 4) (cint 9) (ctor "demo_file.xlsx" "Demo" 1 2))
      [Scalar.text "a", Scalar.dbl 2.5, Scalar.int (cint 7)] (by decide)).elim
    (fun s1 hs => ⟨s1, hs.1, hs.2.2.1⟩)⟩

/-! ## Row-advance marker -/

/-- C3, counterexample: with the row at INT_MAX = 2147483647, the row-advance marker
leaves the row at -2147483648, not at 2147483647 + 1. -/
theorem C3_counterexample :
    (setcursor (cint 3) (cint 2147483647) (ctor "demo_file.xlsx" "Demo" 1 2)).obj._j.val
        = 2147483647 ∧
    (op_shl_manip Manip.endl
        (setcursor (cint 3) (cint 2147483647) (ctor "demo_file.xlsx" "Demo" 1 2))).obj._j.val
        = -2147483648 ∧
    (op_shl_manip Manip.endl
        (setcursor (cint 3) (cint 2147483647) (ctor "demo_file.xlsx" "Demo" 1 2))).obj._j.val
        ≠ 2147483647 + 1 := by
  decide

/-- C3, amended: in a state with cursor (c, r) where r < INT_MAX, operator<< applied to
std::endl gives cursor (0, r + 1) whatever c was, issues no library call (so commits no
cell value), and leaves the workbook, the current sheet, the current format and both
registries unchanged. -/
theorem C3_row_advance (s : Sys) (h : s.obj._j.val < INT_MAX) :
    (op_shl_manip Manip.endl s).obj._i.val = 0 ∧
    (op_shl_manip Manip.endl s).obj._j.val = s.obj._j.val + 1 ∧
    (op_shl_manip Manip.endl s).lib = s.lib ∧
    (op_shl_manip Manip.endl s).obj.workbook = s.obj.workbook ∧
    (op_shl_manip Manip.endl s).obj.worksheet = s.obj.worksheet ∧
    (op_shl_manip Manip.endl s).obj.format = s.obj.format ∧
    (op_shl_manip Manip.endl s).obj.onglet = s.obj.onglet ∧
    (op_shl_manip Manip.endl s).obj.mapF = s.obj.mapF := by
  refine ⟨cint_zero_val, incr_val _ h, rfl, rfl, rfl, rfl, rfl, rfl⟩

/-- C3, witness: the marker applied at cursor (7, 2). -/
theorem C3_row_advance_witness :
    (setcursor (cint 7) (cint 2) (ctor "demo_file.xlsx" "Demo" 1 2)).obj._j.val < INT_MAX ∧
    (op_shl_manip Manip.endl
        (setcursor (cint 7) (cint 2) (ctor "demo_file.xlsx" "Demo" 1 2))).obj._i.val = 0 ∧
    (op_shl_manip Manip.endl
        (setcursor (cint 7) (cint 2) (ctor "demo_file.xlsx" "Demo" 1 2))).obj._j.val = 2 + 1 :=
  ⟨by decide,
   (C3_row_advance (setcursor (cint 7) (cint 2) (ctor "demo_file.xlsx" "Demo" 1 2))
      (by decide)).1,
   (C3_row_advance (setcursor (cint 7) (cint 2) (ctor "demo_file.xlsx" "Demo" 1 2))
      (by decide)).2.1⟩

/-! ## Images -/

theorem op_oror_img_throws (fsExists : String → Except filesystem_error Bool) (img : image)
    (s : Sys) (e : filesystem_error) (h : fsExists img.nom = Except.error e) :
    op_oror fsExists (Value.img img) s = Except.error e := by
  simp [op_oror, writeln_image, h]

set_option maxRecDepth 8000

/-- C4, counterexample: in a file system without files, at cursor (2, 6), operator||
applied to the image "nonexistent.png" returns with the state unchanged, the row at 6 and
not at 6 + 1; applied to an image whose name has 300 characters, for which the existence
query fails, it raises the filesystem_error. -/
theorem C4_counterexample :
    (op_oror emptyFs (Value.img (image.mk "nonexistent.png"))
        (setcursor (cint 2) (cint 6) (ctor "demo_file.xlsx" "Demo" 1 2))
      = Except.ok (setcursor (cint 2) (cint 6) (ctor "demo_file.xlsx" "Demo" 1 2)) ∧
      (setcursor (cint 2) (cint 6) (ctor "demo_file.xlsx" "Demo" 1 2)).obj._j.val = 6 ∧
      (setcursor (cint 2) (cint 6) (ctor "demo_file.xlsx" "Demo" 1 2)).obj._j.val ≠ 6 + 1) ∧
    op_oror emptyFs (Value.img (image.mk longName))
        (setcursor (cint 2) (cint 6) (ctor "demo_file.xlsx" "Demo" 1 2))
      = Except.error (filesystem_error.mk longName) :=
  ⟨⟨rfl, by decide, by decide⟩, rfl⟩

/-- C4, amended: for every state and every image for which filesystem::exists returns
false, operator|| applied to the image returns normally, issues no library call (no
insertion, the cell is left unwritten) and leaves the whole writer state, the cursor (c, r)
included, unchanged: the row does not advance. -/
theorem C4_missing_image_skipped (fsExists : String → Except filesystem_error Bool)
    (img : image) (s : Sys) (h : fsExists img.nom = Except.ok false) :
    op_oror fsExists (Value.img img) s = Except.ok s := by
  simp [op_oror, writeln_image, h]

/-- C4, witness: a missing image written downwards at cursor (2, 6). -/
theorem C4_missing_image_skipped_witness :
    emptyFs (image.mk "nonexistent.png").nom = Except.ok false ∧
    op_oror emptyFs (Value.img (image.mk "nonexistent.png"))
        (setcursor (cint 2) (cint 6) (ctor "demo_file.xlsx" "Demo" 1 2))
      = Except.ok (setcursor (cint 2) (cint 6) (ctor "demo_file.xlsx" "Demo" 1 2)) :=
  ⟨rfl, C4_missing_image_skipped emptyFs (image.mk "nonexistent.png")
      (setcursor (cint 2) (cint 6) (ctor "demo_file.xlsx" "Demo" 1 2)) rfl⟩

/-- C10, counterexample: with the column at INT_MAX = 2147483647, operator<< applied to an
image leaves the column at -2147483648, not at 2147483647 + 1; at cursor (column 70000,
row 5) the insertion reaches the library with column 4464; and at cursor (column 0, row -2)
it reaches the library with row 4294967294. -/
theorem C10_counterexample :
    ((setcursor (cint 2147483647) (cint 5) (ctor "demo_file.xlsx" "Demo" 1 2)).obj._i.val
        = 2147483647 ∧
      (op_shl (Value.img (image.mk "image.jpg"))
        (setcursor (cint 2147483647) (cint 5) (ctor "demo_file.xlsx" "Demo" 1 2))).obj._i.val
        = -2147483648 ∧
      (op_shl (Value.img (image.mk "image.jpg"))
        (setcursor (cint 2147483647) (cint 5) (ctor "demo_file.xlsx" "Demo" 1 2))).obj._i.val
        ≠ 2147483647 + 1) ∧
    (op_shl (Value.img (image.mk "image.jpg"))
        (setcursor (cint 70000) (cint 5) (ctor "demo_file.xlsx" "Demo" 1 2))).lib =
      (ctor "demo_file.xlsx" "Demo" 1 2).lib ++
        [Call.worksheet_insert_image 2 5 4464 "image.jpg"] ∧
    (op_shl (Value.img (image.mk "image.jpg"))
        (setcursor (cint 0) (cint (-2)) (ctor "demo_file.xlsx" "Demo" 1 2))).lib =
      (ctor "demo_file.xlsx" "Demo" 1 2).lib ++
        [Call.worksheet_insert_image 2 4294967294 0 "image.jpg"] :=
  ⟨by decide, rfl, rfl⟩

/-- C10, amended: in a state with cursor (c, r) where c < INT_MAX, operator<< applied to an
image issues exactly one call, the insertion of the image's file (its name as a C string)
on the current sheet, and gives cursor (c + 1, r); the file system is not consulted.  The
insertion is handed over with the column c mod 65536 and the row r mod 4294967296, the
conversions to the index types of the library; when 0 ≤ c ≤ 65535 and 0 ≤ r these are
column c and row r themselves. -/
theorem C10_image_write (img : image) (s : Sys) (h : s.obj._i.val < INT_MAX) :
    (op_shl (Value.img img) s).lib =
      s.lib ++ [Call.worksheet_insert_image s.obj.worksheet (lxw_row_t s.obj._j.val)
        (lxw_col_t s.obj._i.val) (c_str img.nom)] ∧
    (op_shl (Value.img img) s).obj._i.val = s.obj._i.val + 1 ∧
    (op_shl (Value.img img) s).obj._j = s.obj._j ∧
    (op_shl (Value.img img) s).obj.worksheet = s.obj.worksheet ∧
    (0 ≤ s.obj._i.val → s.obj._i.val ≤ 65535 → 0 ≤ s.obj._j.val →
      (op_shl (Value.img img) s).lib =
        s.lib ++ [Call.worksheet_insert_image s.obj.worksheet s.obj._j.val s.obj._i.val
          (c_str img.nom)]) := by
  refine ⟨rfl, incr_val _ h, rfl, rfl, ?_⟩
  intro hc hc1 hr
  show s.lib ++ [Call.worksheet_insert_image s.obj.worksheet (lxw_row_t s.obj._j.val)
        (lxw_col_t s.obj._i.val) (c_str img.nom)] = _
  rw [lxw_row_t_of_nonneg _ hr, lxw_col_t_of_range _ hc hc1]

/-- C10, witness: an image written at cursor (5, 5). -/
theorem C10_image_write_witness :
    (setcursor (cint 5) (cint 5) (ctor "demo_file.xlsx" "Demo" 1 2)).obj._i.val < INT_MAX ∧
    (op_shl (Value.img (image.mk "image.jpg"))
        (setcursor (cint 5) (cint 5) (ctor "demo_file.xlsx" "Demo" 1 2))).obj._i.val =
      (setcursor (cint 5) (cint 5) (ctor "demo_file.xlsx" "Demo" 1 2)).obj._i.val + 1 :=
  ⟨by decide,
   (C10_image_write (image.mk "image.jpg")
      (setcursor (cint 5) (cint 5) (ctor "demo_file.xlsx" "Demo" 1 2)) (by decide)).2.1⟩

/-! ## The scenario -/

/-- C5, counterexample: in the scenario the cell (column 0, row 3) never receives 1.2; the
first element of the vertical write is committed to (column 1, row 2) instead, because the
write of 3.1415 has already advanced the column to 1 on row 2. -/
theorem C5_counterexample :
    Call.worksheet_write_number 2 3 0 1.2 NULL ∉
      (runOps (scenario (fun _ => Except.ok false)) (ctor "demo_file.xlsx" "Demo" 1 2)).lib ∧
    (runOps (scenario (fun _ => Except.ok false)) (ctor "demo_file.xlsx" "Demo" 1 2)).lib[5]? =
      some (Call.worksheet_write_number 2 2 1 1.2 NULL) := by
  constructor
  · have hl : (runOps (scenario (fun _ => Except.ok false)) (ctor "demo_file.xlsx" "Demo" 1 2)).lib =
        [ Call.workbook_new "demo_file.xlsx", Call.workbook_add_worksheet 1 "Demo",
          Call.worksheet_write_string 2 1 0 "hello" NULL,
          Call.worksheet_write_string 2 1 1 "world" NULL,
          Call.worksheet_write_number 2 2 0 3.1415 NULL,
          Call.worksheet_write_number 2 2 1 1.2 NULL,
          Call.worksheet_write_number 2 3 1 3.5 NULL,
          Call.worksheet_write_number 2 4 1 (-6.0) NULL,
          Call.worksheet_write_number 2 5 0 1.2 NULL,
          Call.worksheet_write_number 2 5 1 3.5 NULL,
          Call.worksheet_write_number 2 5 2 (-6.0) NULL ] := rfl
    rw [hl]
    simp
  · rfl

/-- C5, amended: on a freshly constructed writer with initial sheet "Demo", the scenario
ends with cursor (column 3, row 5), and the calls it issues after construction are, in
order, the cell writes (0,1)="hello", (1,1)="world", (0,2)=3.1415, (1,2)=1.2, (1,3)=3.5,
(1,4)=-6.0, then (0,5)=1.2, (1,5)=3.5, (2,5)=-6.0, all on the initial sheet with the null
format. -/
theorem C5_scenario (fsExists : String → Except filesystem_error Bool) (nomFichier : String) (wb ws : Handle) :
    (runOps (scenario fsExists) (ctor nomFichier "Demo" wb ws)).obj._i.val = 3 ∧
    (runOps (scenario fsExists) (ctor nomFichier "Demo" wb ws)).obj._j.val = 5 ∧
    (runOps (scenario fsExists) (ctor nomFichier "Demo" wb ws)).lib =
      (ctor nomFichier "Demo" wb ws).lib ++
        [ Call.worksheet_write_string ws 1 0 "hello" NULL,
          Call.worksheet_write_string ws 1 1 "world" NULL,
          Call.worksheet_write_number ws 2 0 3.1415 NULL,
          Call.worksheet_write_number ws 2 1 1.2 NULL,
          Call.worksheet_write_number ws 3 1 3.5 NULL,
          Call.worksheet_write_number ws 4 1 (-6.0) NULL,
          Call.worksheet_write_number ws 5 0 1.2 NULL,
          Call.worksheet_write_number ws 5 1 3.5 NULL,
          Call.worksheet_write_number ws 5 2 (-6.0) NULL ] :=
  ⟨rfl, rfl, rfl⟩

theorem TestWriteFile_calls (fsExists : String → Except filesystem_error Bool)
    (nomFichier : String) (wb ws : Handle) :
    (TestWriteFile fsExists nomFichier wb ws).obj._i.val = 6 ∧
    (TestWriteFile fsExists nomFichier wb ws).obj._j.val = 5 ∧
    (TestWriteFile fsExists nomFichier wb ws).lib =
      [ Call.workbook_new (c_str nomFichier),
        Call.workbook_add_worksheet wb "démo",
        Call.worksheet_write_string ws 1 0 "hello" NULL,
        Call.worksheet_write_string ws 1 1 "to everybody" NULL,
        Call.worksheet_write_number ws 3 0 3.1415 NULL,
        Call.worksheet_write_number ws 3 1 1.2 NULL,
        Call.worksheet_write_number ws 4 1 3.5 NULL,
        Call.worksheet_write_number ws 5 1 (-6) NULL,
        Call.worksheet_write_number ws 6 1 7.2 NULL,
        Call.worksheet_write_number ws 7 1 12.22 NULL,
        Call.worksheet_write_number ws 5 0 1.2 NULL,
        Call.worksheet_write_number ws 5 1 3.5 NULL,
        Call.worksheet_write_number ws 5 2 (-6) NULL,
        Call.worksheet_write_number ws 5 3 7.2 NULL,
        Call.worksheet_write_number ws 5 4 12.22 NULL,
        Call.worksheet_insert_image ws 5 5 "image.jpg",
        Call.workbook_close wb ] := by
  have e1 : c_str "démo" = "démo" := by decide
  have e2 : c_str "hello" = "hello" := by decide
  have e3 : c_str "to everybody" = "to everybody" := by decide
  have e4 : c_str "image.jpg" = "image.jpg" := by decide
  refine ⟨rfl, rfl, ?_⟩
  simp [TestWriteFile, lifetime, runOps, Op.apply, dtor, close, ctor, setcursor, op_shl,
    op_shl_manip, op_oror, write_string, write_double, write_vecteur, write_image,
    writeln_vecteur, writeln_double, image.nom, incr, cint, wrapInt, NULL, lxw_row_t,
    lxw_col_t, e1, e2, e3, e4]

/-! ## Registries -/

theorem StdMap.find_insert (m : StdMap) (k : String) (v : Handle) :
    (m.insert k v).find k = some ((m.find k).getD v) := by
  unfold StdMap.insert
  cases hm : m.find k with
  | none => simp [StdMap.find, List.lookup]
  | some w => simp [hm]

theorem StdMap.insert_of_find (m : StdMap) (k : String) (v w : Handle)
    (h : m.find k = some w) : m.insert k v = m := by
  unfold StdMap.insert
  simp [h]

/-- C6, counterexample: on a writer constructed with sheet "Demo" (handle 2), addSheet("Demo")
makes the new handle current (3, or NULL when the library returns none) while the registry
still gives handle 2 for "Demo"; addFormat("défaut") makes handle 4 current while the
registry still gives NULL for "défaut".  The current sheet and format are then not the ones
registered under the name. -/
theorem C6_counterexample :
    ((addSheet "Demo" 3 (ctor "demo_file.xlsx" "Demo" 1 2)).obj.worksheet = 3 ∧
      (addSheet "Demo" 3 (ctor "demo_file.xlsx" "Demo" 1 2)).obj.onglet.find "Demo" = some 2 ∧
      (addSheet "Demo" 3 (ctor "demo_file.xlsx" "Demo" 1 2)).obj.onglet.find "Demo" ≠
        some (addSheet "Demo" 3 (ctor "demo_file.xlsx" "Demo" 1 2)).obj.worksheet) ∧
    ((addSheet "Demo" NULL (ctor "demo_file.xlsx" "Demo" 1 2)).obj.onglet.find "Demo" ≠
        some (addSheet "Demo" NULL (ctor "demo_file.xlsx" "Demo" 1 2)).obj.worksheet) ∧
    ((addFormat "défaut" 4 (ctor "demo_file.xlsx" "Demo" 1 2)).obj.format = 4 ∧
      (addFormat "défaut" 4 (ctor "demo_file.xlsx" "Demo" 1 2)).obj.mapF.find "défaut"
        = some NULL ∧
      (addFormat "défaut" 4 (ctor "demo_file.xlsx" "Demo" 1 2)).obj.mapF.find "défaut" ≠
        some (addFormat "défaut" 4 (ctor "demo_file.xlsx" "Demo" 1 2)).obj.format) := by
  decide

/-- C6, amended: for every state, after addSheet(S) the current sheet is the handle the
library returned and a lookup of S in the sheet registry succeeds; the lookup gives the
handle registered earlier under S when there was one, and the current sheet otherwise.
The same holds for addFormat(F), the current format and the format registry. -/
theorem C6_registry (s : Sys) (S F : String) (ret : Handle) :
    (addSheet S ret s).obj.worksheet = ret ∧
    (addSheet S ret s).obj.onglet.find S = some ((s.obj.onglet.find S).getD ret) ∧
    (addFormat F ret s).obj.format = ret ∧
    (addFormat F ret s).obj.mapF.find F = some ((s.obj.mapF.find F).getD ret) :=
  ⟨rfl, StdMap.find_insert _ _ _, rfl, StdMap.find_insert _ _ _⟩

/-- C7, counterexample: on a writer constructed with sheet "Demo" (handle 2), after
addSheet("Demo") returning handle 3 the sheet registry is what it was and maps "Demo" to 2,
not to 3; after addFormat("défaut") returning handle 4 the format registry is what it was
and maps "défaut" to NULL, not to 4. -/
theorem C7_counterexample :
    ((addSheet "Demo" 3 (ctor "demo_file.xlsx" "Demo" 1 2)).obj.onglet = [("Demo", 2)] ∧
      (addSheet "Demo" 3 (ctor "demo_file.xlsx" "Demo" 1 2)).obj.onglet.find "Demo" ≠ some 3) ∧
    ((addFormat "défaut" 4 (ctor "demo_file.xlsx" "Demo" 1 2)).obj.mapF = [("défaut", NULL)] ∧
      (addFormat "défaut" 4 (ctor "demo_file.xlsx" "Demo" 1 2)).obj.mapF.find "défaut"
        ≠ some 4) := by
  decide

/-- C7, amended: for every name already present in the sheet registry (respectively the
format registry, the default entry included), addSheet (respectively addFormat) with that
name leaves the registry unchanged, so that the name is still mapped to the earlier handle;
only the current sheet (respectively format) becomes the newly returned handle. -/
theorem C7_first_write_wins (s : Sys) (S F : String) (ret old oldF : Handle)
    (hS : s.obj.onglet.find S = some old) (hF : s.obj.mapF.find F = some oldF) :
    (addSheet S ret s).obj.onglet = s.obj.onglet ∧
    (addSheet S ret s).obj.onglet.find S = some old ∧
    (addSheet S ret s).obj.worksheet = ret ∧
    (addFormat F ret s).obj.mapF = s.obj.mapF ∧
    (addFormat F ret s).obj.mapF.find F = some oldF ∧
    (addFormat F ret s).obj.format = ret := by
  have h1 : (addSheet S ret s).obj.onglet = s.obj.onglet :=
    StdMap.insert_of_find _ _ _ _ hS
  have h2 : (addFormat F ret s).obj.mapF = s.obj.mapF :=
    StdMap.insert_of_find _ _ _ _ hF
  refine ⟨h1, ?_, rfl, h2, ?_, rfl⟩
  · rw [h1]; exact hS
  · rw [h2]; exact hF

/-- C7, witness: the names given at construction, registered again. -/
theorem C7_first_write_wins_witness :
    (ctor "demo_file.xlsx" "Demo" 1 2).obj.onglet.find "Demo" = some 2 ∧
    (ctor "demo_file.xlsx" "Demo" 1 2).obj.mapF.find "défaut" = some NULL ∧
    (addSheet "Demo" 3 (ctor "demo_file.xlsx" "Demo" 1 2)).obj.onglet.find "Demo" = some 2 ∧
    (addFormat "défaut" 3 (ctor "demo_file.xlsx" "Demo" 1 2)).obj.mapF.find "défaut"
      = some NULL :=
  ⟨by decide, by decide,
   (C7_first_write_wins (ctor "demo_file.xlsx" "Demo" 1 2) "Demo" "défaut" 3 2 NULL
      (by decide) (by decide)).2.1,
   (C7_first_write_wins (ctor "demo_file.xlsx" "Demo" 1 2) "Demo" "défaut" 3 2 NULL
      (by decide) (by decide)).2.2.2.2.1⟩

/-! ## Cursor sign -/

theorem op_shl_cursor (t : Value) (s : Sys)
    (h : s.obj._i.val + (t.cells : Int) ≤ INT_MAX) :
    (op_shl t s).obj._i.val = s.obj._i.val + (t.cells : Int) ∧
    (op_shl t s).obj._j = s.obj._j := by
  cases t with
  | str txt => exact ⟨incr_val _ (by simpa [Value.cells] using h), rfl⟩
  | dbl x => exact ⟨incr_val _ (by simpa [Value.cells] using h), rfl⟩
  | int x => exact ⟨incr_val _ (by simpa [Value.cells] using h), rfl⟩
  | img im => exact ⟨incr_val _ (by simpa [Value.cells] using h), rfl⟩
  | vecteur V =>
    have hs := shl_seq_spec (V.map Scalar.dbl) s (by simpa [Value.cells] using h)
    show (write_vecteur V s).obj._i.val = _ ∧ (write_vecteur V s).obj._j = _
    rw [write_vecteur_eq]
    exact ⟨by simpa [Value.cells] using hs.1, hs.2.1⟩
  | vector_string V =>
    have hs := shl_seq_spec (V.map Scalar.text) s (by simpa [Value.cells] using h)
    show (write_vector_string V s).obj._i.val = _ ∧ (write_vector_string V s).obj._j = _
    rw [write_vector_string_eq]
    exact ⟨by simpa [Value.cells] using hs.1, hs.2.1⟩

theorem apply_oror_img (fsExists : String → Except filesystem_error Bool) (im : image)
    (s : Sys) :
    (fsExists im.nom = Except.ok true ∧
      (Op.oror fsExists (Value.img im)).apply s =
        { obj := { s.obj with _j := incr s.obj._j }
          lib := s.lib ++
            [Call.worksheet_insert_image s.obj.worksheet (lxw_row_t s.obj._j.val)
              (lxw_col_t s.obj._i.val) (c_str im.nom)] }) ∨
    (fsExists im.nom ≠ Except.ok true ∧ (Op.oror fsExists (Value.img im)).apply s = s) := by
  cases hf : fsExists im.nom with
  | error e =>
    right
    exact ⟨by simp, by simp [Op.apply, op_oror, writeln_image, hf]⟩
  | ok b =>
    cases b with
    | false =>
      right
      exact ⟨by simp, by simp [Op.apply, op_oror, writeln_image, hf]⟩
    | true =>
      left
      exact ⟨rfl, by simp [Op.apply, op_oror, writeln_image, hf]⟩

theorem apply_oror_cursor (fsExists : String → Except filesystem_error Bool) (t : Value)
    (s : Sys) (h : s.obj._j.val + (t.lines fsExists : Int) ≤ INT_MAX) :
    ((Op.oror fsExists t).apply s).obj._i = s.obj._i ∧
    ((Op.oror fsExists t).apply s).obj._j.val = s.obj._j.val + (t.lines fsExists : Int) := by
  cases t with
  | str txt => exact ⟨rfl, incr_val _ (by simpa [Value.lines] using h)⟩
  | dbl x => exact ⟨rfl, incr_val _ (by simpa [Value.lines] using h)⟩
  | int x => exact ⟨rfl, incr_val _ (by simpa [Value.lines] using h)⟩
  | img im =>
    cases hf : fsExists im.nom with
    | error e =>
      have e1 : (Op.oror fsExists (Value.img im)).apply s = s := by
        simp [Op.apply, op_oror, writeln_image, hf]
      have hl : Value.lines fsExists (Value.img im) = 0 := by simp [Value.lines, hf]
      rw [hl, e1]
      simp
    | ok b =>
      cases b with
      | false =>
        have e1 : (Op.oror fsExists (Value.img im)).apply s = s := by
          simp [Op.apply, op_oror, writeln_image, hf]
        have hl : Value.lines fsExists (Value.img im) = 0 := by simp [Value.lines, hf]
        rw [hl, e1]
        simp
      | true =>
        have e1 : (Op.oror fsExists (Value.img im)).apply s =
            { obj := { s.obj with _j := incr s.obj._j }
              lib := s.lib ++
                [Call.worksheet_insert_image s.obj.worksheet (lxw_row_t s.obj._j.val)
                  (lxw_col_t s.obj._i.val) (c_str im.nom)] } := by
          simp [Op.apply, op_oror, writeln_image, hf]
        have hl : Value.lines fsExists (Value.img im) = 1 := by simp [Value.lines, hf]
        rw [hl] at h ⊢
        rw [e1]
        exact ⟨rfl, incr_val _ (by simpa using h)⟩
  | vecteur V =>
    obtain ⟨s1, h0, h1, h2, _⟩ :=
      oror_seq_spec fsExists (V.map Scalar.dbl) s (by simpa [Value.lines] using h)
    rw [writeln_vecteur_eq] at h0
    have hs : writeln_vecteur V s = s1 := Except.ok.inj h0
    show (writeln_vecteur V s).obj._i = _ ∧ (writeln_vecteur V s).obj._j.val = _
    rw [hs]
    exact ⟨h1, by simpa [Value.lines] using h2⟩
  | vector_string V =>
    obtain ⟨s1, h0, h1, h2, _⟩ :=
      oror_seq_spec fsExists (V.map Scalar.text) s (by simpa [Value.lines] using h)
    rw [writeln_vector_string_eq] at h0
    have hs : writeln_vector_string V s = s1 := Except.ok.inj h0
    show (writeln_vector_string V s).obj._i = _ ∧ (writeln_vector_string V s).obj._j.val = _
    rw [hs]
    exact ⟨h1, by simpa [Value.lines] using h2⟩

/-- C8, counterexample: setcursor(-1, -1) on a fresh writer gives a cursor with both
coordinates negative; and setcursor(2147483647, 0) followed by one write gives the negative
column -2147483648. -/
theorem C8_counterexample :
    ((setcursor (cint (-1)) (cint (-1)) (ctor "demo_file.xlsx" "Demo" 1 2)).obj._i.val < 0 ∧
      (setcursor (cint (-1)) (cint (-1)) (ctor "demo_file.xlsx" "Demo" 1 2)).obj._j.val < 0) ∧
    (op_shl (Value.int (cint 7))
        (setcursor (cint 2147483647) (cint 0) (ctor "demo_file.xlsx" "Demo" 1 2))).obj._i.val
      < 0 := by
  decide

/-- C8, amended: in every writer state reached from construction by public operations
(setcursor, operator<<, operator||, the row-advance marker, addSheet, addFormat) in which
every setcursor is given non-negative arguments and no write or marker increments a
coordinate beyond INT_MAX, both cursor coordinates are non-negative. -/
theorem C8_cursor_nonneg (s : Sys) (h : Reachable s) :
    0 ≤ s.obj._i.val ∧ 0 ≤ s.obj._j.val := by
  induction h with
  | ctor nomFichier sheet wb ws =>
    show 0 ≤ (cint 0).val ∧ 0 ≤ (cint 0).val
    rw [cint_zero_val]
    exact ⟨le_refl _, le_refl _⟩
  | @step s op _ hadm ih =>
    obtain ⟨hi, hj⟩ := ih
    cases op with
    | addSheet sheet ret => exact ⟨hi, hj⟩
    | addFormat form ret => exact ⟨hi, hj⟩
    | setcursor i j => exact hadm
    | shl t =>
      obtain ⟨h1, h2⟩ := op_shl_cursor t s hadm
      show 0 ≤ (op_shl t s).obj._i.val ∧ 0 ≤ (op_shl t s).obj._j.val
      rw [h1, h2]
      exact ⟨by omega, hj⟩
    | shl_manip f =>
      cases f with
      | endl =>
        have hlt : s.obj._j.val < INT_MAX := hadm rfl
        have h2 : (incr s.obj._j).val = s.obj._j.val + 1 := incr_val _ hlt
        show 0 ≤ (cint 0).val ∧ 0 ≤ (incr s.obj._j).val
        rw [h2]
        exact ⟨by decide, by omega⟩
      | flush => exact ⟨hi, hj⟩
      | ends => exact ⟨hi, hj⟩
    | oror fsExists t =>
      obtain ⟨h1, h2⟩ := apply_oror_cursor fsExists t s hadm
      rw [h1, h2]
      exact ⟨hi, by omega⟩

/-- C8, witness: the state after setcursor(0, 1) and one write on a fresh writer. -/
theorem C8_cursor_nonneg_witness :
    Reachable ((Op.shl (Value.str "hello")).apply
      ((Op.setcursor (cint 0) (cint 1)).apply (ctor "demo_file.xlsx" "Demo" 1 2))) ∧
    0 ≤ ((Op.shl (Value.str "hello")).apply
      ((Op.setcursor (cint 0) (cint 1)).apply (ctor "demo_file.xlsx" "Demo" 1 2))).obj._i.val ∧
    0 ≤ ((Op.shl (Value.str "hello")).apply
      ((Op.setcursor (cint 0) (cint 1)).apply (ctor "demo_file.xlsx" "Demo" 1 2))).obj._j.val :=
  have hr : Reachable ((Op.shl (Value.str "hello")).apply
      ((Op.setcursor (cint 0) (cint 1)).apply (ctor "demo_file.xlsx" "Demo" 1 2))) :=
    Reachable.step (Op.shl (Value.str "hello"))
      (Reachable.step (Op.setcursor (cint 0) (cint 1))
        (Reachable.ctor "demo_file.xlsx" "Demo" 1 2) (by unfold Op.admissible; decide))
      (by unfold Op.admissible; decide)
  ⟨hr, C8_cursor_nonneg _ hr⟩

/-! ## Closing -/

theorem closeCount_snoc (l : List Call) (c : Call) (hc : c.isClose = false) :
    closeCount (l ++ [c]) = closeCount l := by
  simp [closeCount, List.countP_append, hc]

theorem foldl_keeps {α : Type} (P : Sys → Prop) (f : Sys → α → Sys)
    (hf : ∀ s x, P s → P (f s x)) (l : List α) (s : Sys) (hs : P s) : P (l.foldl f s) := by
  induction l generalizing s with
  | nil => exact hs
  | cons x l ih => exact ih (f s x) (hf s x hs)

theorem write_string_frame (x : String) (t : Sys) :
    (write_string x t).obj.workbook = t.obj.workbook ∧
    closeCount (write_string x t).lib = closeCount t.lib :=
  ⟨rfl, closeCount_snoc _ _ rfl⟩

theorem write_double_frame (x : Double) (t : Sys) :
    (write_double x t).obj.workbook = t.obj.workbook ∧
    closeCount (write_double x t).lib = closeCount t.lib :=
  ⟨rfl, closeCount_snoc _ _ rfl⟩

theorem writeln_string_frame (x : String) (t : Sys) :
    (writeln_string x t).obj.workbook = t.obj.workbook ∧
    closeCount (writeln_string x t).lib = closeCount t.lib :=
  ⟨rfl, closeCount_snoc _ _ rfl⟩

theorem writeln_double_frame (x : Double) (t : Sys) :
    (writeln_double x t).obj.workbook = t.obj.workbook ∧
    closeCount (writeln_double x t).lib = closeCount t.lib :=
  ⟨rfl, closeCount_snoc _ _ rfl⟩

theorem op_apply_frame (op : Op) (s : Sys) :
    (op.apply s).obj.workbook = s.obj.workbook ∧
    closeCount (op.apply s).lib = closeCount s.lib := by
  cases op with
  | addSheet sheet ret => exact ⟨rfl, closeCount_snoc _ _ rfl⟩
  | addFormat form ret => exact ⟨rfl, closeCount_snoc _ _ rfl⟩
  | setcursor i j => exact ⟨rfl, rfl⟩
  | shl_manip f => cases f <;> exact ⟨rfl, rfl⟩
  | shl t =>
    cases t with
    | str txt => exact ⟨rfl, closeCount_snoc _ _ rfl⟩
    | dbl x => exact ⟨rfl, closeCount_snoc _ _ rfl⟩
    | int x => exact ⟨rfl, closeCount_snoc _ _ rfl⟩
    | img im => exact ⟨rfl, closeCount_snoc _ _ rfl⟩
    | vecteur V =>
      exact foldl_keeps
        (fun t => t.obj.workbook = s.obj.workbook ∧ closeCount t.lib = closeCount s.lib)
        (fun acc x => write_double x acc)
        (fun t x ht => ⟨(write_double_frame x t).1.trans ht.1, (write_double_frame x t).2.trans ht.2⟩)
        V s ⟨rfl, rfl⟩
    | vector_string V =>
      exact foldl_keeps
        (fun t => t.obj.workbook = s.obj.workbook ∧ closeCount t.lib = closeCount s.lib)
        (fun acc x => write_string x acc)
        (fun t x ht => ⟨(write_string_frame x t).1.trans ht.1, (write_string_frame x t).2.trans ht.2⟩)
        V s ⟨rfl, rfl⟩
  | oror fsExists t =>
    cases t with
    | str txt => exact ⟨rfl, closeCount_snoc _ _ rfl⟩
    | dbl x => exact ⟨rfl, closeCount_snoc _ _ rfl⟩
    | int x => exact ⟨rfl, closeCount_snoc _ _ rfl⟩
    | img im =>
      rcases apply_oror_img fsExists im s with ⟨_, e⟩ | ⟨_, e⟩
      · rw [e]
        exact ⟨rfl, closeCount_snoc _ _ rfl⟩
      · rw [e]
        exact ⟨rfl, rfl⟩
    | vecteur V =>
      exact foldl_keeps
        (fun t => t.obj.workbook = s.obj.workbook ∧ closeCount t.lib = closeCount s.lib)
        (fun acc x => writeln_double x acc)
        (fun t x ht => ⟨(writeln_double_frame x t).1.trans ht.1, (writeln_double_frame x t).2.trans ht.2⟩)
        V s ⟨rfl, rfl⟩
    | vector_string V =>
      exact foldl_keeps
        (fun t => t.obj.workbook = s.obj.workbook ∧ closeCount t.lib = closeCount s.lib)
        (fun acc x => writeln_string x acc)
        (fun t x ht => ⟨(writeln_string_frame x t).1.trans ht.1, (writeln_string_frame x t).2.trans ht.2⟩)
        V s ⟨rfl, rfl⟩

theorem runOps_frame (ops : List Op) (s : Sys) :
    (runOps ops s).obj.workbook = s.obj.workbook ∧
    closeCount (runOps ops s).lib = closeCount s.lib := by
  unfold runOps
  exact foldl_keeps
    (fun t => t.obj.workbook = s.obj.workbook ∧ closeCount t.lib = closeCount s.lib)
    (fun (acc : Sys) (op : Op) => op.apply acc)
    (fun t op ht => ⟨(op_apply_frame op t).1.trans ht.1, (op_apply_frame op t).2.trans ht.2⟩)
    ops s ⟨rfl, rfl⟩

theorem lifetime_closeCount (nomFichier sheet : String) (wb ws : Handle) (ops : List Op) :
    closeCount (lifetime nomFichier sheet wb ws ops).lib = 1 := by
  obtain ⟨_, hc⟩ := runOps_frame ops (ctor nomFichier sheet wb ws)
  have h0 : closeCount (ctor nomFichier sheet wb ws).lib = 0 := rfl
  have hsnoc : closeCount (lifetime nomFichier sheet wb ws ops).lib =
      closeCount (runOps ops (ctor nomFichier sheet wb ws)).lib + 1 := by
    simp [lifetime, dtor, close, closeCount, List.countP_append, Call.isClose]
  rw [hsnoc, hc, h0]

/-- C9: a writer and a copy of it leaving their block.  Both destructors run close, and
close has no record of an earlier close: workbook_close is issued twice on the one
workbook, after the two calls of the construction, and nothing else is done. -/
theorem C9_copy_closes_twice (nomFichier sheet : String) (wb ws : Handle) :
    copy_scope nomFichier sheet wb ws =
      [ Call.workbook_new (c_str nomFichier),
        Call.workbook_add_worksheet wb (c_str sheet),
        Call.workbook_close wb,
        Call.workbook_close wb ] ∧
    closeCount (copy_scope nomFichier sheet wb ws) = 2 :=
  ⟨rfl, rfl⟩
